import Mathlib

/-!
Verification development for the CCPP heat-balance solver (`ccpp_hbd_solver`).

The Python solver stages are shallowly embedded as pure Lean functions over a
linear ordered field `K` (instantiated at `ℚ` for concrete evaluation and at
`ℝ` inside the pipeline, whose steam-turbine stage uses a base-10 logarithm).
Python dictionaries with `.get(key, default)` access are modelled as structures
whose optional fields are `Option K`; an absent sub-dictionary is identified
with the record having all fields `none`, which is equivalent because every
access applies a default.  Diagnostic detail strings produced by
`format_warning` are abstracted to the stable warning codes (the code catalogue
is the contract surface per the spec); trace records that merely echo locals,
run metadata (timestamps, git commit) and the humid-air property lookup
(external property service, not consumed by any solver arithmetic) are not
modelled.
-/

variable {K : Type} [LinearOrderedField K]

/-- Stable warning codes from `utils/warnings.py` (`WARNING_MESSAGES`). -/
inductive WCode where
  | HRSG_PINCH_VIOLATION
  | HRSG_APPROACH_VIOLATION
  | HRSG_STACK_LOW
  | ATTEMP_LIMIT_REACHED
  | ATTEMP_NOT_REQUIRED
  | CLOSURE_NEAR_LIMIT
  | CLOSURE_GT_0P5
deriving DecidableEq

/-- The three HRSG pressure levels, `LEVEL_ORDER = ("hp", "ip", "lp")`. -/
inductive PLevel where
  | hp
  | ip
  | lp
deriving DecidableEq

/-- One pressure level of the `hrsg` spec mapping. -/
structure LevelSpec (K : Type) where
  pressure_bar : Option K := none
  steam_temp_C : Option K := none
  pinch_K : Option K := none
  approach_K : Option K := none

/-- Embedding of `hrsg.devices.bypass`. -/
structure BypassSpec (K : Type) where
  fraction : Option K := none

/-- Embedding of `hrsg.devices.duct_burner`. -/
structure DuctBurnerSpec (K : Type) where
  duty_MW : Option K := none
  stack_temp_cap_C : Option K := none

/-- One entry of `hrsg.devices.attemperators`.  The Python `target` is a level
name string; a value outside `level_results` is skipped by the loop, so it is
modelled as `Option PLevel` with `none` for absent or unknown targets. -/
structure AttempSpec (K : Type) where
  target : Option PLevel := none
  steam_temp_C : Option K := none
  m_dot_max_kg_s : Option K := none

/-- Embedding of `hrsg.devices`. -/
structure DevicesSpec (K : Type) where
  bypass : Option (BypassSpec K) := none
  duct_burner : Option (DuctBurnerSpec K) := none
  attemperators : List (AttempSpec K) := []

/-- Embedding of `hrsg.constraints` (mode strings, `enforce` is the default). -/
structure ConstraintsSpec where
  pinch_mode : Option String := none
  approach_mode : Option String := none
  stack_mode : Option String := none

/-- The `hrsg` section of a case. -/
structure HrsgSpec (K : Type) where
  hp : Option (LevelSpec K) := none
  ip : Option (LevelSpec K) := none
  lp : Option (LevelSpec K) := none
  stack_temp_min_C : Option K := none
  feedwater_temp_C : Option K := none
  devices : Option (DevicesSpec K) := none
  constraints : Option ConstraintsSpec := none

/-- Case-level `case_constraints`; `bool(...)` of an absent key is `False`. -/
structure CaseConstraints where
  allow_relaxed_pinch : Option Bool := none
  allow_relaxed_stack : Option Bool := none

/-- The `gt_exhaust` sub-mapping of the HRSG context. -/
structure GtExhaustIn (K : Type) where
  temp_C : Option K := none
  flow_kg_s : Option K := none

/-- Context mapping accepted by `solve_hrsg_block`. -/
structure HrsgContext (K : Type) where
  gt_exhaust : Option (GtExhaustIn K) := none
  hrsg : Option (HrsgSpec K) := none
  case_constraints : Option CaseConstraints := none

/-- Per-level slice of the HRSG result. -/
structure LevelResult (K : Type) where
  steam_flow_kg_s : K
  steam_P_bar : K
  steam_T_C : K

/-- The three per-level result entries of `level_results`. -/
structure LevelsOut (K : Type) where
  hp : LevelResult K
  ip : LevelResult K
  lp : LevelResult K

/-- Result mapping returned by `solve_hrsg_block`. -/
structure HrsgResult (K : Type) where
  hp : LevelResult K
  ip : LevelResult K
  lp : LevelResult K
  stack_temp_C : K
  available_heat_MW : K
  iterations_used : Int
  converged : Bool
  warnings : List WCode

def LevelsOut.get (r : LevelsOut K) : PLevel → LevelResult K
  | .hp => r.hp
  | .ip => r.ip
  | .lp => r.lp

/-- Replace the `steam_T_C` entry of one level (the only field the
attemperator loop mutates). -/
def LevelsOut.setT (r : LevelsOut K) : PLevel → K → LevelsOut K
  | .hp, t => { r with hp := { r.hp with steam_T_C := t } }
  | .ip, t => { r with ip := { r.ip with steam_T_C := t } }
  | .lp, t => { r with lp := { r.lp with steam_T_C := t } }

/-- Embedding of `hrsg_spec.get(level, {})`. -/
def HrsgSpec.levelSpec (s : HrsgSpec K) : PLevel → LevelSpec K
  | .hp => s.hp.getD {}
  | .ip => s.ip.getD {}
  | .lp => s.lp.getD {}

/-- Embedding of `_specific_energy_required`: latent heat 2257 kJ/kg plus
`max(steam_temp - feedwater_temp, 0) * CP_FEEDWATER` with `CP_FEEDWATER = 4.186`. -/
def specificEnergyRequired (steam_temp_c feedwater_temp_c : K) : K :=
  2257 + max (steam_temp_c - feedwater_temp_c) 0 * (4186 / 1000)

/-- Bypass handling in `solve_hrsg_block`: the exhaust flow is reduced only for
`0 < fraction < 1`. -/
def usableExhaustFlow (flow f : K) : K :=
  if 0 < f ∧ f < 1 then flow * (1 - f) else flow

/-- Embedding of `hrsg_spec.devices.bypass.fraction`, defaulted to `0.0`. -/
def hrsgBypassFraction (s : HrsgSpec K) : K :=
  ((s.devices.bind fun d => d.bypass).bind fun b => b.fraction).getD 0

/-- Embedding of `stack_temp_target` before the optional duct-burner cap (`stack_temp_min_C`,
default 90). -/
def hrsgStackTarget0 (s : HrsgSpec K) : K :=
  s.stack_temp_min_C.getD 90

/-- Embedding of `feedwater_temp` local (`feedwater_temp_C`, default 95). -/
def hrsgFeedwaterTemp (s : HrsgSpec K) : K :=
  s.feedwater_temp_C.getD 95

/-- The usable exhaust flow local of `solve_hrsg_block`. -/
def hrsgExhaustFlow (ctx : HrsgContext K) : K :=
  usableExhaustFlow ((ctx.gt_exhaust.getD {}).flow_kg_s.getD 0)
    (hrsgBypassFraction (ctx.hrsg.getD {}))

/-- Embedding of `available_heat_kj_per_s`: exhaust flow times `CP_EXHAUST_GAS = 1.15` times
`max(exhaust_temp - stack_temp_target, 0)`, plus duct-burner duty (MW to kJ/s)
when a duct burner is present. -/
def hrsgAvailableHeat (ctx : HrsgContext K) : K :=
  let s := ctx.hrsg.getD {}
  let deltaT := max ((ctx.gt_exhaust.getD {}).temp_C.getD 0 - hrsgStackTarget0 s) 0
  let base := hrsgExhaustFlow ctx * (115 / 100) * deltaT
  match s.devices.bind fun d => d.duct_burner with
  | some db => base + db.duty_MW.getD 0 * 1000
  | none => base

/-- Embedding of `stack_temp_target` after the optional `duct_burner.stack_temp_cap_C`
downward cap. -/
def hrsgStackTarget (s : HrsgSpec K) : K :=
  match s.devices.bind fun d => d.duct_burner with
  | some db =>
    match db.stack_temp_cap_C with
    | some cap => min (hrsgStackTarget0 s) cap
    | none => hrsgStackTarget0 s
  | none => hrsgStackTarget0 s

/-- The `steam_temp_C` local of the energy-weight loop (defaults to the
feedwater temperature). -/
def levelSteamTemp (s : HrsgSpec K) (l : PLevel) : K :=
  (s.levelSpec l).steam_temp_C.getD (hrsgFeedwaterTemp s)

/-- Embedding of `energy_per_kg` of one level. -/
def levelEnergy (s : HrsgSpec K) (l : PLevel) : K :=
  specificEnergyRequired (levelSteamTemp s l) (hrsgFeedwaterTemp s)

/-- Embedding of `inverse = 1.0 / energy_per_kg if energy_per_kg > 0 else 0.0`. -/
def levelWeight (s : HrsgSpec K) (l : PLevel) : K :=
  if 0 < levelEnergy s l then 1 / levelEnergy s l else 0

/-- Embedding of `total_inverse`, summed in `LEVEL_ORDER`. -/
def totalInverse (s : HrsgSpec K) : K :=
  levelWeight s .hp + levelWeight s .ip + levelWeight s .lp

/-- Embedding of `steam_flow` of one level: `heat_share / max(energy_per_kg, 1e-6)` with
`heat_share = available_heat * weight_fraction`. -/
def levelFlow (ctx : HrsgContext K) (l : PLevel) : K :=
  let s := ctx.hrsg.getD {}
  let wf := if 0 < totalInverse s then levelWeight s l / totalInverse s else 0
  hrsgAvailableHeat ctx * wf / max (levelEnergy s l) (1 / 1000000)

/-- Embedding of `level_results` as populated by the distribution loop, before the
attemperator loop runs. -/
def initialLevels (ctx : HrsgContext K) : LevelsOut K :=
  let s := ctx.hrsg.getD {}
  let mk := fun l => LevelResult.mk (levelFlow ctx l)
    ((s.levelSpec l).pressure_bar.getD 0) (levelSteamTemp s l)
  ⟨mk .hp, mk .ip, mk .lp⟩

/-- Body of the attemperator loop of `solve_hrsg_block` for a single spec
entry, threading `(level_results, warnings)`. -/
def applyAttemp (st : LevelsOut K × List WCode) (a : AttempSpec K) :
    LevelsOut K × List WCode :=
  match a.target with
  | none => st
  | some t =>
    let levels := st.1
    let warns := st.2
    let currentTemp := (levels.get t).steam_T_C
    let targetTemp := a.steam_temp_C.getD currentTemp
    let flowLimit := a.m_dot_max_kg_s.getD 0
    let flowRate := max (levels.get t).steam_flow_kg_s (1 / 1000000)
    if currentTemp ≤ targetTemp then
      (levels, warns ++ [WCode.ATTEMP_NOT_REQUIRED])
    else
      let achievableDrop := min (flowLimit / flowRate) 1 * (currentTemp - targetTemp)
      let newTemp := currentTemp - achievableDrop
      let warns2 := if targetTemp + 1 / 10 < newTemp
        then warns ++ [WCode.ATTEMP_LIMIT_REACHED] else warns
      (levels.setT t (max targetTemp newTemp), warns2)

/-- Pinch/approach validation for one level: warning list and the contribution
to `converged` (false exactly when a violation fires under `enforce` mode
without the relaxed-pinch allowance). -/
def levelCheck (fw pinchLimit approachLimit temp : K)
    (pinchMode approachMode : String) (allowRelaxedPinch : Bool) :
    List WCode × Bool :=
  let actualPinch := max (temp - fw - approachLimit) 0
  let p := if actualPinch < pinchLimit
    then ([WCode.HRSG_PINCH_VIOLATION],
      if pinchMode = "enforce" ∧ allowRelaxedPinch = false then false else true)
    else ([], true)
  let actualApproach := max (temp - fw - pinchLimit) 0
  let a := if actualApproach < approachLimit
    then ([WCode.HRSG_APPROACH_VIOLATION],
      if approachMode = "enforce" ∧ allowRelaxedPinch = false then false else true)
    else ([], true)
  (p.1 ++ a.1, p.2 && a.2)

/-- Embedding of `solve_hrsg_block` (result side; the trace echoes the same locals). -/
def solve_hrsg_block (ctx : HrsgContext K) : HrsgResult K :=
  let s := ctx.hrsg.getD {}
  let cc := ctx.case_constraints.getD {}
  let allowRelaxedPinch := cc.allow_relaxed_pinch.getD false
  let allowRelaxedStack := cc.allow_relaxed_stack.getD false
  let pinchMode := (s.constraints.bind fun c => c.pinch_mode).getD "enforce"
  let approachMode := (s.constraints.bind fun c => c.approach_mode).getD "enforce"
  let stackMode := (s.constraints.bind fun c => c.stack_mode).getD "enforce"
  let attemps := (s.devices.getD {}).attemperators
  let la := attemps.foldl applyAttemp (initialLevels ctx, [])
  let chk := fun l => levelCheck (hrsgFeedwaterTemp s) ((s.levelSpec l).pinch_K.getD 0)
    ((s.levelSpec l).approach_K.getD 0) ((la.1.get l).steam_T_C)
    pinchMode approachMode allowRelaxedPinch
  let stackT := hrsgStackTarget s
  let sc := if stackT < s.stack_temp_min_C.getD stackT
    then ([WCode.HRSG_STACK_LOW],
      if stackMode = "enforce" ∧ allowRelaxedStack = false then false else true)
    else ([], true)
  { hp := la.1.hp
    ip := la.1.ip
    lp := la.1.lp
    stack_temp_C := stackT
    available_heat_MW := hrsgAvailableHeat ctx / 1000
    iterations_used := 1
    converged := (chk .hp).2 && (chk .ip).2 && (chk .lp).2 && sc.2
    warnings := la.2 ++ (chk .hp).1 ++ (chk .ip).1 ++ (chk .lp).1 ++ sc.1 }

/-- The `ambient` section of a case (`RH_pct` and `P_bar` feed only the
humid-air diagnostic lookup, which is not modelled). -/
structure AmbientSpec (K : Type) where
  Ta_C : Option K := none
  RH_pct : Option K := none
  P_bar : Option K := none

/-- Embedding of `gas_turbine.corr_coeff`. -/
structure CorrCoeff (K : Type) where
  reference_temp_C : Option K := none
  dPower_pct_per_K : Option K := none
  dFlow_pct_per_K : Option K := none
  dExhT_K_per_K : Option K := none

/-- Embedding of `gas_turbine.performance_blend`. -/
structure BlendSpec (K : Type) where
  mode : Option String := none
  blend_weight : Option K := none
  vendor_curve_id : Option String := none

/-- A vendor curve as returned by `load_vendor_curve`. -/
structure VendorCurve (K : Type) where
  delta_power_pct : Option K := none
  delta_flow_pct : Option K := none
  delta_exhaust_temp_C : Option K := none

/-- The `gas_turbine` section of a case. -/
structure GtSpec (K : Type) where
  ISO_power_MW : Option K := none
  ISO_heat_rate_kJ_per_kWh : Option K := none
  ISO_exhaust_temp_C : Option K := none
  ISO_exhaust_flow_kg_s : Option K := none
  fuel_LHV_kJ_per_kg : Option K := none
  corr_coeff : Option (CorrCoeff K) := none
  performance_blend : Option (BlendSpec K) := none

/-- The `steam_turbine` section of a case. -/
structure StSpec (K : Type) where
  isentropic_eff_hp : Option K := none
  isentropic_eff_ip : Option K := none
  isentropic_eff_lp : Option K := none
  mech_elec_eff : Option K := none

/-- The `condenser` section of a case. -/
structure CondSpec (K : Type) where
  vacuum_kPa_abs : Option K := none
  cw_inlet_C : Option K := none

/-- The `bop` section of a case. -/
structure BopSpec (K : Type) where
  aux_load_MW : Option K := none

/-- A merged case record, restricted to the fields the pipeline consumes
(`meta` is run bookkeeping and is not modelled). -/
structure Case (K : Type) where
  ambient : Option (AmbientSpec K) := none
  gas_turbine : Option (GtSpec K) := none
  hrsg : Option (HrsgSpec K) := none
  steam_turbine : Option (StSpec K) := none
  condenser : Option (CondSpec K) := none
  bop : Option (BopSpec K) := none
  case_constraints : Option CaseConstraints := none

/-- Output record of `apply_site_corrections` (minus the `humid_air`
diagnostic sub-record, which no solver consumes). -/
structure AmbientCorrections (K : Type) where
  site_temperature_C : K
  delta_T_K : K
  power_correction_pct : K
  flow_correction_pct : K
  exhaust_temp_delta_C : K
  power_multiplier : K
  flow_multiplier : K

/-- Embedding of `apply_site_corrections` from `ambient/ambient_correction.py`:
linear corrections around `reference_temp_C` (default 15, the ISO reference). -/
def apply_site_corrections (ambient : AmbientSpec K) (corr_coeff : CorrCoeff K) :
    AmbientCorrections K :=
  let siteTemp := ambient.Ta_C.getD 15
  let deltaTemp := siteTemp - corr_coeff.reference_temp_C.getD 15
  let powerPct := corr_coeff.dPower_pct_per_K.getD 0 * deltaTemp
  let flowPct := corr_coeff.dFlow_pct_per_K.getD 0 * deltaTemp
  let exhaustDelta := corr_coeff.dExhT_K_per_K.getD 0 * deltaTemp
  { site_temperature_C := siteTemp
    delta_T_K := deltaTemp
    power_correction_pct := powerPct
    flow_correction_pct := flowPct
    exhaust_temp_delta_C := exhaustDelta
    power_multiplier := 1 + powerPct / 100
    flow_multiplier := 1 + flowPct / 100 }

/-- GT exhaust sub-record of the GT block result. -/
structure GtExhaust (K : Type) where
  temp_C : K
  flow_kg_s : K

/-- Result of `solve_gt_block` (the `correction_summary` echo and the vendor
notes, which are diagnostic strings, are not modelled). -/
structure GtResult (K : Type) where
  fuel_heat_input_MW_LHV : K
  fuel_LHV_kJ_per_kg : Option K
  fuel_flow_kg_s : Option K
  electric_power_MW : K
  exhaust : GtExhaust K

/-- Inputs mapping of `solve_gt_block` (the `ambient` entry the pipeline also
passes is never read by the function). -/
structure GtInputs (K : Type) where
  gas_turbine : Option (GtSpec K) := none
  corrections : Option (AmbientCorrections K) := none

/-- The multiplicative/additive adjustments of the optional vendor blend in
`solve_gt_block`: active only when `performance_blend.mode == "vendor_blend"`,
the curve id is present and non-empty (Python truthiness) and the curve
resolves via `load_vendor_curve` (modelled as the `lookup` parameter, since the
Python version reads an environment variable and a JSON file).  Returns the
factors applied to `power_multiplier`, `flow_multiplier` and the additive
exhaust-temperature delta. -/
def vendorBlendFactors (lookup : String → Option (VendorCurve K))
    (blend : Option (BlendSpec K)) : K × K × K :=
  match blend with
  | none => (1, 1, 0)
  | some b =>
    let mode := b.mode.getD "linear"
    let w := b.blend_weight.getD 1
    if mode = "vendor_blend" then
      match b.vendor_curve_id with
      | some cid =>
        if cid = "" then (1, 1, 0)
        else
          match lookup cid with
          | some curve =>
            (1 + curve.delta_power_pct.getD 0 * w / 100,
             1 + curve.delta_flow_pct.getD 0 * w / 100,
             curve.delta_exhaust_temp_C.getD 0 * w)
          | none => (1, 1, 0)
      | none => (1, 1, 0)
    else (1, 1, 0)

/-- Embedding of `solve_gt_block` from `gt_block/gt_solver.py` (result side). -/
def solve_gt_block (lookup : String → Option (VendorCurve K))
    (inputs : GtInputs K) : GtResult K :=
  let g := inputs.gas_turbine.getD {}
  let isoPower := g.ISO_power_MW.getD 0
  let isoHeatRate := g.ISO_heat_rate_kJ_per_kWh.getD 0
  let isoExhaustTemp := g.ISO_exhaust_temp_C.getD 0
  let isoExhaustFlow := g.ISO_exhaust_flow_kg_s.getD 0
  let bf := vendorBlendFactors lookup g.performance_blend
  let powerMultiplier := (inputs.corrections.map AmbientCorrections.power_multiplier).getD 1 * bf.1
  let flowMultiplier := (inputs.corrections.map AmbientCorrections.flow_multiplier).getD 1 * bf.2.1
  let exhaustTempDelta := (inputs.corrections.map AmbientCorrections.exhaust_temp_delta_C).getD 0 + bf.2.2
  let electricPower := isoPower * powerMultiplier
  let fuelHeatInput := isoHeatRate * electricPower / 3600
  { fuel_heat_input_MW_LHV := fuelHeatInput
    fuel_LHV_kJ_per_kg := g.fuel_LHV_kJ_per_kg
    fuel_flow_kg_s :=
      match g.fuel_LHV_kJ_per_kg with
      | some v => if v = 0 then none else some (fuelHeatInput * 1000 / v)
      | none => none
    electric_power_MW := electricPower
    exhaust := { temp_C := isoExhaustTemp + exhaustTempDelta, flow_kg_s := isoExhaustFlow * flowMultiplier } }

/-- Embedding of `kpa_to_bar` from `utils/unit_helpers.py` (kilopascal to bar is division
by 100 in the conversion table). -/
def kpa_to_bar (x : K) : K := x / 100

/-- One section record of the steam-turbine result (the exhaust-pressure echo
fields are copies of inputs and are not consumed downstream). -/
structure StSection (K : Type) where
  inlet_P_bar : K
  inlet_T_C : K
  power_MW : K
  flow_kg_s : K

/-- Result of `solve_steam_turbine`. -/
structure StResult (K : Type) where
  hp_section : StSection K
  ip_section : StSection K
  lp_section : StSection K
  gross_mech_power_MW : K
  electric_power_MW : K
  mech_elec_eff : K

/-- Embedding of `_approx_saturation_temp` from `st_block/st_solver.py`: 25 for
non-positive pressure, else `100 + 45*log10(max(p, 0.05))`. -/
noncomputable def approxSatTemp (pressure_bar : ℝ) : ℝ :=
  if pressure_bar ≤ 0 then 25
  else 100 + 45 * Real.logb 10 (max pressure_bar (5 / 100))

/-- Embedding of `_section_delta_h`: `cp_steam * max(inlet - exhaust, 5)` scaled by the
efficiency clamped to `[0, 1]`. -/
def sectionDeltaH (steam_temp_c exhaust_temp_c efficiency : K) : K :=
  (208 / 100) * max (steam_temp_c - exhaust_temp_c) 5 * max (min efficiency 1) 0

/-- Context mapping of `solve_steam_turbine` (in the pipeline `hrsg` is always
the preceding HRSG block result, whose keys are all present). -/
structure StContext where
  hrsg : HrsgResult ℝ
  steam_turbine : Option (StSpec ℝ) := none
  condenser : Option (CondSpec ℝ) := none

/-- Embedding of `solve_steam_turbine` from `st_block/st_solver.py` (result side). -/
noncomputable def solve_steam_turbine (ctx : StContext) : StResult ℝ :=
  let spec := ctx.steam_turbine.getD {}
  let effHp := spec.isentropic_eff_hp.getD (88 / 100)
  let effIp := spec.isentropic_eff_ip.getD effHp
  let effLp := spec.isentropic_eff_lp.getD effIp
  let mechEff := spec.mech_elec_eff.getD (985 / 1000)
  let ipPressure := ctx.hrsg.ip.steam_P_bar
  let lpPressure := ctx.hrsg.lp.steam_P_bar
  let condenserPressureBar := kpa_to_bar ((ctx.condenser.getD {}).vacuum_kPa_abs.getD 8)
  let hpExhaustTemp := approxSatTemp (max ipPressure 1)
  let ipExhaustTemp := approxSatTemp (max lpPressure (1 / 2))
  let lpExhaustTemp := approxSatTemp (max condenserPressureBar (1 / 10))
  let hpDeltaH := sectionDeltaH ctx.hrsg.hp.steam_T_C hpExhaustTemp effHp
  let ipDeltaH := sectionDeltaH ctx.hrsg.ip.steam_T_C ipExhaustTemp effIp
  let lpDeltaH := sectionDeltaH ctx.hrsg.lp.steam_T_C lpExhaustTemp effLp
  let hpPower := ctx.hrsg.hp.steam_flow_kg_s * hpDeltaH / 1000
  let ipPower := ctx.hrsg.ip.steam_flow_kg_s * ipDeltaH / 1000
  let lpPower := ctx.hrsg.lp.steam_flow_kg_s * lpDeltaH / 1000
  let grossMechPower := hpPower + ipPower + lpPower
  { hp_section := ⟨ctx.hrsg.hp.steam_P_bar, ctx.hrsg.hp.steam_T_C,
      hpPower * mechEff, ctx.hrsg.hp.steam_flow_kg_s⟩
    ip_section := ⟨ipPressure, ctx.hrsg.ip.steam_T_C,
      ipPower * mechEff, ctx.hrsg.ip.steam_flow_kg_s⟩
    lp_section := ⟨lpPressure, ctx.hrsg.lp.steam_T_C,
      lpPower * mechEff, ctx.hrsg.lp.steam_flow_kg_s⟩
    gross_mech_power_MW := grossMechPower
    electric_power_MW := grossMechPower * mechEff
    mech_elec_eff := mechEff }

/-- Result of `solve_condenser_loop`. -/
structure CondenserResult (K : Type) where
  cw_inlet_C : K
  cw_outlet_C : K
  heat_rejected_MW : K
  condensing_temp_C : K
  lp_flow_kg_s : K

/-- Context mapping of `solve_condenser_loop` (in the pipeline the
`steam_turbine` and `gt_block` entries are the preceding block results). -/
structure CondenserContext (K : Type) where
  steam_turbine : StResult K
  condenser : Option (CondSpec K) := none
  gt_block : GtResult K

/-- Embedding of `solve_condenser_loop` from `condenser_loop/condenser_solver.py`
(result side): heat rejected is the larger of the top-down energy-balance
residual (floored at 0) and the bottom-up latent (2250 kJ/kg) plus sensible
(`cp_water = 4.186`) estimate. -/
def solve_condenser_loop (ctx : CondenserContext K) : CondenserResult K :=
  let lpFlow := ctx.steam_turbine.lp_section.flow_kg_s
  let lpInletTemp := ctx.steam_turbine.lp_section.inlet_T_C
  let cwInlet := (ctx.condenser.getD {}).cw_inlet_C.getD 20
  let condenserPressureBar := kpa_to_bar ((ctx.condenser.getD {}).vacuum_kPa_abs.getD 8)
  let condensingTemp := max 25 (100 + 40 * (condenserPressureBar - 1 / 10))
  let sensibleDrop := max (lpInletTemp - condensingTemp) 0
  let thermalBalanceMw := max (ctx.gt_block.fuel_heat_input_MW_LHV
    - (ctx.gt_block.electric_power_MW + ctx.steam_turbine.electric_power_MW)) 0
  let baselineHeatMw := (lpFlow * 2250 + lpFlow * (4186 / 1000) * sensibleDrop) / 1000
  let heatRejectedMw := max thermalBalanceMw baselineHeatMw
  let cwMassFlow := max (lpFlow * 60) 1
  let cwDeltaTemp := heatRejectedMw * 1000 / (cwMassFlow * (4186 / 1000))
  { cw_inlet_C := cwInlet
    cw_outlet_C := cwInlet + cwDeltaTemp
    heat_rejected_MW := heatRejectedMw
    condensing_temp_C := condensingTemp
    lp_flow_kg_s := lpFlow }

/-- The `summary` record of `summarize_plant`. -/
structure PlantSummary (K : Type) where
  GT_power_MW : K
  ST_power_MW : K
  AUX_load_MW : K
  NET_power_MW : K
  NET_eff_LHV_pct : K

/-- The `mass_balance` record of `summarize_plant`. -/
structure MassBalance (K : Type) where
  closure_error_pct : K
  converged : Bool
  iterations_used : Int

/-- The blocks mapping consumed by `summarize_plant`. -/
structure SummaryBlocks (K : Type) where
  gt_block : GtResult K
  hrsg_block : HrsgResult K
  st_block : StResult K
  condenser_block : CondenserResult K

/-- The metadata mapping consumed by `summarize_plant` (the `meta` strings are
run bookkeeping and are not modelled). -/
structure SummaryMeta (K : Type) where
  bop : Option (BopSpec K) := none

/-- Output of `summarize_plant`: the summary and mass-balance records plus the
warning codes collected in the trace. -/
structure SummaryOut (K : Type) where
  summary : PlantSummary K
  mass_balance : MassBalance K
  warnings : List WCode

/-- Embedding of `summarize_plant` from `plant_summary/plant_summary.py`.  Python guards the
two divisions with the truthiness of `fuel_heat_input`, i.e. `fuel != 0`. -/
def summarize_plant (blocks : SummaryBlocks K) (metadata : SummaryMeta K) : SummaryOut K :=
  let fuelHeatInput := blocks.gt_block.fuel_heat_input_MW_LHV
  let gtPower := blocks.gt_block.electric_power_MW
  let stPower := blocks.st_block.electric_power_MW
  let auxLoad := (metadata.bop.getD {}).aux_load_MW.getD 0
  let condenserHeat := blocks.condenser_block.heat_rejected_MW
  let netPower := gtPower + stPower - auxLoad
  let netEffPct := if fuelHeatInput = 0 then 0 else netPower / fuelHeatInput * 100
  let expectedHeatOut := gtPower + stPower + condenserHeat
  let closureErrorPct := if fuelHeatInput = 0 then 0
    else |fuelHeatInput - expectedHeatOut| / fuelHeatInput * 100
  let convergenceOk := decide (closureErrorPct ≤ 3 / 10) && blocks.hrsg_block.converged
  { summary := ⟨gtPower, stPower, auxLoad, netPower, netEffPct⟩
    mass_balance := ⟨closureErrorPct, convergenceOk, blocks.hrsg_block.iterations_used⟩
    warnings :=
      (if 1 / 2 < closureErrorPct then [WCode.CLOSURE_GT_0P5]
       else if 3 / 10 < closureErrorPct then [WCode.CLOSURE_NEAR_LIMIT]
       else [])
      ++ (if blocks.hrsg_block.converged then [] else [WCode.HRSG_PINCH_VIOLATION]) }

/-- The distinguished cancellation condition (`PipelineCancelled`). -/
structure PipelineCancelled where

/-- Embedding of `PipelineArtifacts` plus the summary outputs assembled into `result`
(`meta` timestamps/commit are run bookkeeping and are not modelled; the trace
tree echoes the same block computations). -/
structure PipelineArtifacts where
  gt_block : GtResult ℝ
  hrsg_block : HrsgResult ℝ
  st_block : StResult ℝ
  condenser_block : CondenserResult ℝ
  summary : PlantSummary ℝ
  mass_energy_balance : MassBalance ℝ
  warnings : List WCode
  merged_case : Case ℝ

/-- Embedding of `run_pipeline` from `pipeline.py`.  `cancel i` is the value the cooperative
cancellation event shows at the `i`-th of the six `_check_cancel()` calls (one
before each stage); the progress callback has no observable effect on the
artifacts and is not modelled.  Note that the HRSG stage context is built with
the keys `gt_exhaust`, `hrsg` and `ambient` only: the case's
`case_constraints` entry is not forwarded, hence `case_constraints := none`
(`ambient` is never read by `solve_hrsg_block`). -/
noncomputable def runPipeline (lookup : String → Option (VendorCurve ℝ))
    (caseData : Case ℝ) (cancel : Fin 6 → Bool) :
    Except PipelineCancelled PipelineArtifacts :=
  if cancel 0 then .error {} else
  let ambientTrace := apply_site_corrections (caseData.ambient.getD {})
    ((caseData.gas_turbine.getD {}).corr_coeff.getD {})
  if cancel 1 then .error {} else
  let gtResult := solve_gt_block lookup
    { gas_turbine := caseData.gas_turbine, corrections := some ambientTrace }
  if cancel 2 then .error {} else
  let hrsgResult := solve_hrsg_block
    { gt_exhaust := some ⟨some gtResult.exhaust.temp_C, some gtResult.exhaust.flow_kg_s⟩
      hrsg := caseData.hrsg
      case_constraints := none }
  if cancel 3 then .error {} else
  let stResult := solve_steam_turbine
    { hrsg := hrsgResult, steam_turbine := caseData.steam_turbine,
      condenser := caseData.condenser }
  if cancel 4 then .error {} else
  let condenserResult := solve_condenser_loop
    { steam_turbine := stResult, condenser := caseData.condenser, gt_block := gtResult }
  if cancel 5 then .error {} else
  let summaryOut := summarize_plant
    { gt_block := gtResult, hrsg_block := hrsgResult, st_block := stResult,
      condenser_block := condenserResult }
    { bop := caseData.bop }
  .ok { gt_block := gtResult, hrsg_block := hrsgResult, st_block := stResult,
        condenser_block := condenserResult, summary := summaryOut.summary,
        mass_energy_balance := summaryOut.mass_balance,
        warnings := summaryOut.warnings, merged_case := caseData }

/-- JSON-shaped values of a case record, for `deep_merge` (numbers modelled as
rationals; `obj` is a Python dict as an association list in insertion order,
so dict-valued inputs have pairwise distinct keys). -/
inductive JVal where
  | num : ℚ → JVal
  | str : String → JVal
  | bool : Bool → JVal
  | null : JVal
  | arr : List JVal → JVal
  | obj : List (String × JVal) → JVal

/-- Dict lookup `m[k]` / `k in m` on the association-list model. -/
def lookupKey (k : String) : List (String × JVal) → Option JVal
  | [] => none
  | (k0, v0) :: rest => if k0 = k then some v0 else lookupKey k rest

/-- Dict assignment `m[k] = v`: replace in place when the key is present
(Python dicts keep the key's position), append otherwise. -/
def setKey (m : List (String × JVal)) (k : String) (v : JVal) : List (String × JVal) :=
  if (lookupKey k m).isSome then m.map fun p => if p.1 = k then (k, v) else p
  else m ++ [(k, v)]

mutual

/-- The merged value for one override item in `deep_merge`: when the key is
present in the accumulator (`lookupKey` is `some`) and both values are
mappings, merge recursively; otherwise the override value replaces wholesale. -/
def mergeVal : Option JVal → JVal → JVal
  | some (JVal.obj bo), JVal.obj vo => JVal.obj (deep_merge bo vo)
  | _, v => v
termination_by b v => sizeOf v
decreasing_by
  all_goals simp

/-- Embedding of `deep_merge` from `pipeline.py`: start from a copy of `base` and fold the
`override` items in order. -/
def deep_merge : List (String × JVal) → List (String × JVal) → List (String × JVal)
  | merged, [] => merged
  | merged, (k, v) :: rest =>
    deep_merge (setKey merged k (mergeVal (lookupKey k merged) v)) rest
termination_by m ov => sizeOf ov
decreasing_by
  all_goals simp
  all_goals omega

end

/-- Embedding of `merge_case_with_defaults` from `pipeline.py`. -/
def merge_case_with_defaults (case_data defaults : List (String × JVal)) :
    List (String × JVal) :=
  deep_merge defaults case_data

/-- Concrete base mapping for the deep-merge witness. -/
def mergeBaseW : List (String × JVal) :=
  [("a", JVal.num 1), ("nest", JVal.obj [("x", JVal.num 1), ("y", JVal.num 2)])]

/-- Concrete override mapping for the deep-merge witness. -/
def mergeOvW : List (String × JVal) :=
  [("nest", JVal.obj [("y", JVal.num 5), ("z", JVal.num 6)]), ("b", JVal.str "s")]

/-- Concrete `level_results` state for the attemperator counterexample: the HP
level has zero steam flow (an exhaust-starved case) at 400 degrees. -/
def attempCexLevels : LevelsOut ℚ :=
  ⟨⟨0, 100, 400⟩, ⟨0, 10, 95⟩, ⟨0, 3, 95⟩⟩

/-- Concrete attemperator spec for the counterexample: target HP at 350 with a
spray limit of 0, which equals the HP steam flow. -/
def attempCexSpec : AttempSpec ℚ :=
  { target := some PLevel.hp, steam_temp_C := some 350, m_dot_max_kg_s := some 0 }

/-- Concrete full-bypass HRSG context (`bypass.fraction = 1`): 600 degree,
500 kg/s exhaust against the default 90 degree stack target. -/
def bypassCaseW : HrsgContext ℚ :=
  { gt_exhaust := some ⟨some 600, some 500⟩
    hrsg := some
      { hp := some { pressure_bar := some 100, steam_temp_C := some 450 }
        devices := some { bypass := some ⟨some 1⟩ } } }

/-- Concrete GT block result for the plant-summary witness. -/
def gtResW : GtResult ℚ :=
  { fuel_heat_input_MW_LHV := 100, fuel_LHV_kJ_per_kg := none, fuel_flow_kg_s := none
    electric_power_MW := 30, exhaust := ⟨600, 500⟩ }

/-- Concrete HRSG block result for the plant-summary witness. -/
def hrsgResW : HrsgResult ℚ :=
  { hp := ⟨0, 0, 0⟩, ip := ⟨0, 0, 0⟩, lp := ⟨0, 0, 0⟩, stack_temp_C := 90
    available_heat_MW := 0, iterations_used := 1, converged := true, warnings := [] }

/-- Concrete ST block result for the plant-summary witness. -/
def stResW : StResult ℚ :=
  { hp_section := ⟨0, 0, 0, 0⟩, ip_section := ⟨0, 0, 0, 0⟩, lp_section := ⟨0, 0, 0, 0⟩
    gross_mech_power_MW := 0, electric_power_MW := 20, mech_elec_eff := 985 / 1000 }

/-- Concrete condenser block result for the plant-summary witness. -/
def condResW : CondenserResult ℚ :=
  { cw_inlet_C := 20, cw_outlet_C := 25, heat_rejected_MW := 50
    condensing_temp_C := 25, lp_flow_kg_s := 0 }

/-- Blocks mapping for the plant-summary witness: fuel 100 against
30 + 20 + 50, an exact closure. -/
def sumBlocksW : SummaryBlocks ℚ := ⟨gtResW, hrsgResW, stResW, condResW⟩

/-- Vendor-curve lookup for the ISO-identity counterexample: every id resolves
to a curve adding 10 percent power. -/
def vendorLookupCex : String → Option (VendorCurve ℚ) :=
  fun _ => some { delta_power_pct := some 10 }

/-- Gas-turbine spec for the ISO-identity counterexample: the ISO scenario
nameplate plus an active vendor blend. -/
def gtSpecCex : GtSpec ℚ :=
  { ISO_power_MW := some 300, ISO_heat_rate_kJ_per_kWh := some 9500
    performance_blend := some
      { mode := some "vendor_blend", blend_weight := some 1, vendor_curve_id := some "curveA" } }

/-- Gas-turbine spec for the ISO-identity witness (no performance blend). -/
def gtSpecIsoW : GtSpec ℚ :=
  { ISO_power_MW := some 300, ISO_heat_rate_kJ_per_kWh := some 9500 }

/-- ISO ambient record (15 degrees, 60 percent RH, 1.013 bar). -/
def ambientIsoW : AmbientSpec ℚ :=
  { Ta_C := some 15, RH_pct := some 60, P_bar := some (1013 / 1000) }

/-- Correction coefficients with nonzero slopes and the default ISO
reference temperature. -/
def corrCoeffW : CorrCoeff ℚ :=
  { dPower_pct_per_K := some (1 / 2), dFlow_pct_per_K := some (1 / 5)
    dExhT_K_per_K := some (1 / 10) }

/-- Failing case for the relax-flag claim: HP configured at 100 degrees steam
temperature against 95 degree feedwater and a 10 K pinch limit (actual pinch
5 K), with `case_constraints.allow_relaxed_pinch = true` supplied. -/
def relaxCase : Case ℝ :=
  { hrsg := some { hp := some { steam_temp_C := some 100, pinch_K := some 10 } }
    case_constraints := some { allow_relaxed_pinch := some true } }

/-- An empty case record (every stage then runs on defaults). -/
def caseEmptyR : Case ℝ := {}

/-- Concrete `level_results` state for the attemperator witness: HP flow of
80 kg/s at 400 degrees. -/
def attempWLevels : LevelsOut ℚ :=
  ⟨⟨80, 100, 400⟩, ⟨0, 10, 95⟩, ⟨0, 3, 95⟩⟩

/-- Concrete attemperator spec for the witness: target HP at 350 with an
ample 1000 kg/s spray limit. -/
def attempWSpec : AttempSpec ℚ :=
  { target := some PLevel.hp, steam_temp_C := some 350, m_dot_max_kg_s := some 1000 }

lemma specificEnergyRequired_ge (st fw : K) : (2257 : K) ≤ specificEnergyRequired st fw := by
  have h : (0 : K) ≤ max (st - fw) 0 * (4186 / 1000) :=
    mul_nonneg (le_max_right _ _) (by norm_num)
  simpa [specificEnergyRequired] using le_add_of_nonneg_right h

lemma levelEnergy_pos (s : HrsgSpec K) (l : PLevel) : (0 : K) < levelEnergy s l :=
  lt_of_lt_of_le (by norm_num) (specificEnergyRequired_ge _ _)

lemma setT_flow (r : LevelsOut K) (t l : PLevel) (x : K) :
    ((r.setT t x).get l).steam_flow_kg_s = (r.get l).steam_flow_kg_s := by
  cases t <;> cases l <;> simp [LevelsOut.setT, LevelsOut.get]

lemma applyAttemp_flow (st : LevelsOut K × List WCode) (a : AttempSpec K) (l : PLevel) :
    ((applyAttemp st a).1.get l).steam_flow_kg_s = (st.1.get l).steam_flow_kg_s := by
  unfold applyAttemp
  cases a.target with
  | none => rfl
  | some t =>
    simp only []
    split
    · rfl
    · simpa using setT_flow st.1 t l _

lemma foldl_applyAttemp_flow (as : List (AttempSpec K)) (st : LevelsOut K × List WCode)
    (l : PLevel) :
    (((as.foldl applyAttemp st)).1.get l).steam_flow_kg_s = (st.1.get l).steam_flow_kg_s := by
  induction as generalizing st with
  | nil => rfl
  | cons a rest ih => rw [List.foldl_cons, ih, applyAttemp_flow]

lemma solve_hrsg_block_flow (ctx : HrsgContext K) (l : PLevel) :
    (match l with
      | PLevel.hp => (solve_hrsg_block ctx).hp
      | PLevel.ip => (solve_hrsg_block ctx).ip
      | PLevel.lp => (solve_hrsg_block ctx).lp).steam_flow_kg_s = levelFlow ctx l := by
  have h := foldl_applyAttemp_flow
    ((ctx.hrsg.getD {}).devices.getD {}).attemperators (initialLevels ctx, ([] : List WCode)) l
  cases l <;>
    simpa [solve_hrsg_block, LevelsOut.get, initialLevels] using h

/-- Claim C1: energy conservation of the HRSG allocation.  For every context
accepted by `solve_hrsg_block`, the sum over the three levels of
(steam flow of the level times the specific energy of the level, specific
energy being latent heat 2257 kJ/kg plus `cp_feedwater * max(steam_temp -
feedwater_temp, 0)`) equals the available heat in kJ/s (exhaust flow times
`cp_exhaust` times `max(exhaust_temp - stack_temp_target, 0)` plus duct-burner
duty when present), exactly in field arithmetic. -/
theorem hrsg_alloc_energy_conservation (ctx : HrsgContext K) :
    (solve_hrsg_block ctx).hp.steam_flow_kg_s *
        specificEnergyRequired (levelSteamTemp (ctx.hrsg.getD {}) .hp)
          (hrsgFeedwaterTemp (ctx.hrsg.getD {}))
      + (solve_hrsg_block ctx).ip.steam_flow_kg_s *
        specificEnergyRequired (levelSteamTemp (ctx.hrsg.getD {}) .ip)
          (hrsgFeedwaterTemp (ctx.hrsg.getD {}))
      + (solve_hrsg_block ctx).lp.steam_flow_kg_s *
        specificEnergyRequired (levelSteamTemp (ctx.hrsg.getD {}) .lp)
          (hrsgFeedwaterTemp (ctx.hrsg.getD {}))
      = hrsgAvailableHeat ctx := by
  have hhp := solve_hrsg_block_flow ctx .hp
  have hip := solve_hrsg_block_flow ctx .ip
  have hlp := solve_hrsg_block_flow ctx .lp
  simp only [] at hhp hip hlp
  rw [hhp, hip, hlp]
  set s := ctx.hrsg.getD {} with hs
  have he : ∀ l, levelEnergy s l = specificEnergyRequired (levelSteamTemp s l)
      (hrsgFeedwaterTemp s) := fun l => rfl
  have hpos : ∀ l, (0 : K) < levelEnergy s l := levelEnergy_pos s
  have hmax : ∀ l, max (levelEnergy s l) ((1 : K) / 1000000) = levelEnergy s l := by
    intro l
    exact max_eq_left (le_trans (by norm_num) (specificEnergyRequired_ge _ _))
  have hw : ∀ l, levelWeight s l = 1 / levelEnergy s l := by
    intro l
    simp [levelWeight, hpos l]
  have hW : totalInverse s = 1 / levelEnergy s .hp + 1 / levelEnergy s .ip
      + 1 / levelEnergy s .lp := by
    simp [totalInverse, hw]
  have hWpos : (0 : K) < totalInverse s := by
    rw [hW]
    have := hpos PLevel.hp
    have := hpos PLevel.ip
    have := hpos PLevel.lp
    positivity
  have hflow : ∀ l, levelFlow ctx l
      = hrsgAvailableHeat ctx * (1 / levelEnergy s l / totalInverse s) / levelEnergy s l := by
    intro l
    simp only [levelFlow, ← hs, hWpos, if_pos, hw, hmax]
  rw [← he PLevel.hp, ← he PLevel.ip, ← he PLevel.lp,
    hflow PLevel.hp, hflow PLevel.ip, hflow PLevel.lp]
  have t : ∀ l, hrsgAvailableHeat ctx * (1 / levelEnergy s l / totalInverse s)
      / levelEnergy s l * levelEnergy s l
      = hrsgAvailableHeat ctx * (1 / levelEnergy s l) / totalInverse s := by
    intro l
    rw [div_mul_cancel₀ _ (hpos l).ne', mul_div_assoc]
  rw [t PLevel.hp, t PLevel.ip, t PLevel.lp, div_add_div_same, div_add_div_same]
  have hsum : hrsgAvailableHeat ctx * (1 / levelEnergy s PLevel.hp)
      + hrsgAvailableHeat ctx * (1 / levelEnergy s PLevel.ip)
      + hrsgAvailableHeat ctx * (1 / levelEnergy s PLevel.lp)
      = hrsgAvailableHeat ctx * totalInverse s := by
    rw [hW]
    ring
  rw [hsum, mul_div_assoc, div_self hWpos.ne', mul_one]

lemma levelFlow_pos (ctx : HrsgContext K) (hA : 0 < hrsgAvailableHeat ctx) (l : PLevel) :
    0 < levelFlow ctx l := by
  set s := ctx.hrsg.getD {} with hs
  have hpos : ∀ l', (0 : K) < levelEnergy s l' := levelEnergy_pos s
  have hmax : max (levelEnergy s l) ((1 : K) / 1000000) = levelEnergy s l :=
    max_eq_left (le_trans (by norm_num) (specificEnergyRequired_ge _ _))
  have hw : ∀ l', levelWeight s l' = 1 / levelEnergy s l' := by
    intro l'
    simp [levelWeight, hpos l']
  have hWpos : (0 : K) < totalInverse s := by
    rw [totalInverse, hw, hw, hw]
    have := hpos PLevel.hp
    have := hpos PLevel.ip
    have := hpos PLevel.lp
    positivity
  have hwf : (0 : K) < levelWeight s l / totalInverse s :=
    div_pos (by rw [hw]; exact one_div_pos.mpr (hpos l)) hWpos
  simp only [levelFlow]
  rw [← hs, if_pos hWpos, hmax]
  exact div_pos (mul_pos hA hwf) (hpos l)

lemma get_setT_self (r : LevelsOut K) (t : PLevel) (x : K) :
    ((r.setT t x).get t).steam_T_C = x := by
  cases t <;> simp [LevelsOut.setT, LevelsOut.get]

/-- Claim C4: conservative condenser heat rejection.  For every input to
`solve_condenser_loop`, the returned `heat_rejected_MW` is at least the
bottom-up latent-plus-sensible estimate, at least the top-down energy-balance
residual `fuel_heat_input - (GT_power + ST_power)`, and equals the larger of
the two estimates with the residual floored at 0. -/
theorem condenser_heat_rejected_max (ctx : CondenserContext K) :
    (solve_condenser_loop ctx).heat_rejected_MW
        ≥ (ctx.steam_turbine.lp_section.flow_kg_s * 2250
          + ctx.steam_turbine.lp_section.flow_kg_s * (4186 / 1000)
            * max (ctx.steam_turbine.lp_section.inlet_T_C
              - max 25 (100 + 40 * (kpa_to_bar ((ctx.condenser.getD {}).vacuum_kPa_abs.getD 8)
                - 1 / 10))) 0) / 1000
    ∧ (solve_condenser_loop ctx).heat_rejected_MW
        ≥ ctx.gt_block.fuel_heat_input_MW_LHV
          - (ctx.gt_block.electric_power_MW + ctx.steam_turbine.electric_power_MW)
    ∧ (solve_condenser_loop ctx).heat_rejected_MW
        = max (max (ctx.gt_block.fuel_heat_input_MW_LHV
            - (ctx.gt_block.electric_power_MW + ctx.steam_turbine.electric_power_MW)) 0)
          ((ctx.steam_turbine.lp_section.flow_kg_s * 2250
            + ctx.steam_turbine.lp_section.flow_kg_s * (4186 / 1000)
              * max (ctx.steam_turbine.lp_section.inlet_T_C
                - max 25 (100 + 40 * (kpa_to_bar ((ctx.condenser.getD {}).vacuum_kPa_abs.getD 8)
                  - 1 / 10))) 0) / 1000) := by
  refine ⟨le_max_right _ _, le_trans (le_max_left _ _) (le_max_left _ _), rfl⟩

/-- Claim C10: bypass-fraction edge behaviour.  The exhaust-bypass fraction
reduces the usable exhaust flow only for fractions strictly between 0 and 1;
for every fraction at most 0 or at least 1 (including exactly 1, nominally
full bypass) the usable exhaust flow equals the full GT exhaust flow, so such
a case still generates HP steam whenever the available heat is positive. -/
theorem bypass_edge_full_flow (ctx : HrsgContext K)
    (hf : hrsgBypassFraction (ctx.hrsg.getD {}) ≤ 0
      ∨ 1 ≤ hrsgBypassFraction (ctx.hrsg.getD {})) :
    hrsgExhaustFlow ctx = (ctx.gt_exhaust.getD {}).flow_kg_s.getD 0
    ∧ (0 < hrsgAvailableHeat ctx → 0 < (solve_hrsg_block ctx).hp.steam_flow_kg_s) := by
  constructor
  · unfold hrsgExhaustFlow usableExhaustFlow
    rw [if_neg]
    rintro ⟨h1, h2⟩
    rcases hf with h | h
    · exact absurd h1 (not_lt.mpr h)
    · exact absurd h2 (not_lt.mpr h)
  · intro hA
    have h := solve_hrsg_block_flow ctx PLevel.hp
    simp only [] at h
    rw [h]
    exact levelFlow_pos ctx hA PLevel.hp

/-- Witness for C10 at a concrete full-bypass case (`fraction = 1`,
600 degree / 500 kg/s exhaust): the usable flow is the full 500 kg/s and HP
steam is still generated. -/
theorem bypass_edge_full_flow_witness :
    hrsgBypassFraction (bypassCaseW.hrsg.getD {}) = 1
    ∧ hrsgExhaustFlow bypassCaseW = 500
    ∧ 0 < (solve_hrsg_block bypassCaseW).hp.steam_flow_kg_s := by
  have hb : hrsgBypassFraction (bypassCaseW.hrsg.getD {}) = 1 := by
    norm_num [hrsgBypassFraction, bypassCaseW]
  have h := bypass_edge_full_flow bypassCaseW (Or.inr (le_of_eq hb.symm))
  refine ⟨hb, ?_, h.2 ?_⟩
  · rw [h.1]
    norm_num [bypassCaseW]
  · norm_num [hrsgAvailableHeat, hrsgExhaustFlow, usableExhaustFlow, hrsgBypassFraction,
      hrsgStackTarget0, bypassCaseW, max_def]

/-- Claim C7 (amended): attemperator exactness under unlimited spray.  For a
spec targeting level `t` with an explicit target temperature below the current
steam temperature, if the spray limit is at least `max(level_flow, 1e-6)` (the
floor Python applies to the flow before dividing) the resulting temperature is
exactly the target and no warning is emitted; if the current temperature is
already at or below the target, the levels are unchanged and
`ATTEMP_NOT_REQUIRED` is appended. -/
theorem attemp_spray_spec (levels : LevelsOut K) (warns : List WCode) (a : AttempSpec K)
    (t : PLevel) (tt : K) (ht : a.target = some t) (hst : a.steam_temp_C = some tt) :
    (tt < (levels.get t).steam_T_C →
        max (levels.get t).steam_flow_kg_s (1 / 1000000) ≤ a.m_dot_max_kg_s.getD 0 →
        ((applyAttemp (levels, warns) a).1.get t).steam_T_C = tt
          ∧ (applyAttemp (levels, warns) a).2 = warns)
    ∧ ((levels.get t).steam_T_C ≤ tt →
        (applyAttemp (levels, warns) a).1 = levels
          ∧ (applyAttemp (levels, warns) a).2 = warns ++ [WCode.ATTEMP_NOT_REQUIRED]) := by
  obtain ⟨targ, stC, mdot⟩ := a
  simp only [] at ht hst
  subst ht
  subst hst
  constructor
  · intro hlt hlim
    have hnot : ¬ (levels.get t).steam_T_C ≤ tt := not_le.mpr hlt
    have hfr : (0 : K) < max (levels.get t).steam_flow_kg_s (1 / 1000000) :=
      lt_of_lt_of_le (by norm_num) (le_max_right _ _)
    have hmin : min (mdot.getD 0 / max (levels.get t).steam_flow_kg_s (1 / 1000000)) 1
        = (1 : K) := min_eq_right ((one_le_div hfr).mpr hlim)
    have hdrop : (levels.get t).steam_T_C
        - min (mdot.getD 0 / max (levels.get t).steam_flow_kg_s (1 / 1000000)) 1
          * ((levels.get t).steam_T_C - tt) = tt := by
      rw [hmin]
      ring
    simp only [applyAttemp, Option.getD_some, if_neg hnot, hdrop, max_self]
    have h110 : ¬ tt + 1 / 10 < tt := not_lt.mpr (by linarith)
    rw [if_neg h110]
    exact ⟨get_setT_self levels t tt, rfl⟩
  · intro hle
    simp [applyAttemp, if_pos hle]

/-- Counterexample for C7 as stated: for the exhaust-starved HP level (steam
flow 0, temperature 400) and an attemperator targeting 350 with spray limit 0,
the claim's hypothesis "spray limit at least the level's steam flow" holds
(0 is at least 0), yet the resulting temperature is 400, not the target, and
`ATTEMP_LIMIT_REACHED` is emitted. -/
theorem attemp_spray_cex :
    attempCexSpec.m_dot_max_kg_s.getD 0 = (attempCexLevels.get PLevel.hp).steam_flow_kg_s
    ∧ (350 : ℚ) < (attempCexLevels.get PLevel.hp).steam_T_C
    ∧ ((applyAttemp (attempCexLevels, []) attempCexSpec).1.get PLevel.hp).steam_T_C = 400
    ∧ (applyAttemp (attempCexLevels, []) attempCexSpec).2 = [WCode.ATTEMP_LIMIT_REACHED] := by
  refine ⟨?_, ?_, ?_, ?_⟩ <;>
    norm_num [applyAttemp, attempCexSpec, attempCexLevels, LevelsOut.get, LevelsOut.setT,
      max_def, min_def]

/-- Witness for C7 (amended) at a concrete input: HP at 400 degrees with
80 kg/s flow, target 350, 1000 kg/s spray limit; the result is exactly 350
with no warning. -/
theorem attemp_spray_spec_witness :
    ((applyAttemp (attempWLevels, []) attempWSpec).1.get PLevel.hp).steam_T_C = 350
    ∧ (applyAttemp (attempWLevels, []) attempWSpec).2 = [] :=
  (attemp_spray_spec attempWLevels [] attempWSpec PLevel.hp 350 rfl rfl).1
    (by norm_num [attempWLevels, LevelsOut.get])
    (by norm_num [attempWLevels, attempWSpec, LevelsOut.get, max_def])

lemma closure_mem_near (e : K) (conv : Bool) :
    WCode.CLOSURE_NEAR_LIMIT ∈ ((if 1 / 2 < e then [WCode.CLOSURE_GT_0P5]
        else if 3 / 10 < e then [WCode.CLOSURE_NEAR_LIMIT] else [])
      ++ (if conv then [] else [WCode.HRSG_PINCH_VIOLATION]))
      ↔ (3 / 10 < e ∧ e ≤ 1 / 2) := by
  constructor
  · intro hm
    by_cases h5 : 1 / 2 < e
    · exfalso
      revert hm
      rw [if_pos h5]
      cases conv <;> simp
    · by_cases h3 : 3 / 10 < e
      · exact ⟨h3, not_lt.mp h5⟩
      · exfalso
        revert hm
        rw [if_neg h5, if_neg h3]
        cases conv <;> simp
  · rintro ⟨h3, h2⟩
    rw [if_neg (not_lt.mpr h2), if_pos h3]
    simp

lemma closure_mem_gt05 (e : K) (conv : Bool) :
    WCode.CLOSURE_GT_0P5 ∈ ((if 1 / 2 < e then [WCode.CLOSURE_GT_0P5]
        else if 3 / 10 < e then [WCode.CLOSURE_NEAR_LIMIT] else [])
      ++ (if conv then [] else [WCode.HRSG_PINCH_VIOLATION]))
      ↔ 1 / 2 < e := by
  constructor
  · intro hm
    by_cases h5 : 1 / 2 < e
    · exact h5
    · exfalso
      revert hm
      rw [if_neg h5]
      by_cases h3 : 3 / 10 < e
      · rw [if_pos h3]
        cases conv <;> simp
      · rw [if_neg h3]
        cases conv <;> simp
  · intro h5
    rw [if_pos h5]
    simp

/-- Claim C2: plant-summary closure verdict.  For every blocks input with
positive fuel heat input, `summarize_plant` reports the closure error
`|fuel - (GT + ST + heat_rejected)| / fuel * 100`, sets `converged` exactly
when that error is at most 0.3 and the HRSG block converged, emits
`CLOSURE_NEAR_LIMIT` exactly for errors in (0.3, 0.5], `CLOSURE_GT_0P5`
exactly for errors above 0.5, and the error is 0 when the balance is exact. -/
theorem plant_summary_closure (blocks : SummaryBlocks K) (metadata : SummaryMeta K)
    (hf : 0 < blocks.gt_block.fuel_heat_input_MW_LHV) :
    (summarize_plant blocks metadata).mass_balance.closure_error_pct
        = |blocks.gt_block.fuel_heat_input_MW_LHV
            - (blocks.gt_block.electric_power_MW + blocks.st_block.electric_power_MW
              + blocks.condenser_block.heat_rejected_MW)|
          / blocks.gt_block.fuel_heat_input_MW_LHV * 100
    ∧ ((summarize_plant blocks metadata).mass_balance.converged = true
        ↔ (summarize_plant blocks metadata).mass_balance.closure_error_pct ≤ 3 / 10
          ∧ blocks.hrsg_block.converged = true)
    ∧ (WCode.CLOSURE_NEAR_LIMIT ∈ (summarize_plant blocks metadata).warnings
        ↔ 3 / 10 < (summarize_plant blocks metadata).mass_balance.closure_error_pct
          ∧ (summarize_plant blocks metadata).mass_balance.closure_error_pct ≤ 1 / 2)
    ∧ (WCode.CLOSURE_GT_0P5 ∈ (summarize_plant blocks metadata).warnings
        ↔ 1 / 2 < (summarize_plant blocks metadata).mass_balance.closure_error_pct)
    ∧ (blocks.gt_block.electric_power_MW + blocks.st_block.electric_power_MW
          + blocks.condenser_block.heat_rejected_MW
          = blocks.gt_block.fuel_heat_input_MW_LHV
        → (summarize_plant blocks metadata).mass_balance.closure_error_pct = 0) := by
  have hne : blocks.gt_block.fuel_heat_input_MW_LHV ≠ 0 := ne_of_gt hf
  simp only [summarize_plant, hne, if_false, ite_false]
  refine ⟨trivial, ?_, ?_, ?_, ?_⟩
  · simp [Bool.and_eq_true, decide_eq_true_iff]
  · exact closure_mem_near _ _
  · exact closure_mem_gt05 _ _
  · intro h
    rw [h, sub_self, abs_zero, zero_div, zero_mul]

/-- Witness for C2 at a concrete exact balance (fuel 100 against
30 + 20 + 50 with the HRSG converged). -/
theorem plant_summary_closure_witness :
    (summarize_plant sumBlocksW {}).mass_balance.closure_error_pct
      = |(100 : ℚ) - (30 + 20 + 50)| / 100 * 100 :=
  (plant_summary_closure sumBlocksW {} (by norm_num [sumBlocksW, gtResW])).1

/-- Claim C5 (amended): ISO-reference identity and GT formulas.  When the
ambient temperature equals the correction reference temperature,
`apply_site_corrections` returns multipliers 1.0 and exhaust delta 0, and —
provided the optional vendor performance blend leaves the multipliers
unchanged (in particular when `performance_blend` is absent or its curve does
not resolve) — `solve_gt_block` returns `electric_power_MW = ISO_power_MW` and
`fuel_heat_input_MW_LHV = ISO_heat_rate * electric_power / 3600`. -/
theorem gt_iso_reference (ambient : AmbientSpec K) (corr : CorrCoeff K)
    (lookup : String → Option (VendorCurve K)) (g : GtSpec K)
    (hTa : ambient.Ta_C.getD 15 = corr.reference_temp_C.getD 15)
    (hblend : vendorBlendFactors lookup g.performance_blend = (1, 1, 0)) :
    (apply_site_corrections ambient corr).power_multiplier = 1
    ∧ (apply_site_corrections ambient corr).flow_multiplier = 1
    ∧ (apply_site_corrections ambient corr).exhaust_temp_delta_C = 0
    ∧ (solve_gt_block lookup (GtInputs.mk (some g) (some (apply_site_corrections ambient corr)))).electric_power_MW
      = g.ISO_power_MW.getD 0
    ∧ (solve_gt_block lookup (GtInputs.mk (some g) (some (apply_site_corrections ambient corr)))).fuel_heat_input_MW_LHV
      = g.ISO_heat_rate_kJ_per_kWh.getD 0
        * (solve_gt_block lookup (GtInputs.mk (some g) (some (apply_site_corrections ambient corr)))).electric_power_MW
        / 3600 := by
  have hdelta : ambient.Ta_C.getD 15 - corr.reference_temp_C.getD 15 = 0 :=
    sub_eq_zero.mpr hTa
  have h1 : (apply_site_corrections ambient corr).power_multiplier = 1 := by
    simp [apply_site_corrections, hdelta]
  have h2 : (apply_site_corrections ambient corr).flow_multiplier = 1 := by
    simp [apply_site_corrections, hdelta]
  have h3 : (apply_site_corrections ambient corr).exhaust_temp_delta_C = 0 := by
    simp [apply_site_corrections, hdelta]
  refine ⟨h1, h2, h3, ?_, rfl⟩
  simp [solve_gt_block, h1, hblend]

/-- Counterexample for C5 as stated: at the reference ambient temperature the
site multipliers are 1 and the exhaust delta 0, yet with an active vendor
blend (a resolving curve adding 10 percent power) `solve_gt_block` returns
330 MW electric power, not the 300 MW ISO power. -/
theorem gt_iso_reference_cex :
    (apply_site_corrections ambientIsoW corrCoeffW).power_multiplier = 1
    ∧ (apply_site_corrections ambientIsoW corrCoeffW).exhaust_temp_delta_C = 0
    ∧ (solve_gt_block vendorLookupCex (GtInputs.mk (some gtSpecCex) (some (apply_site_corrections ambientIsoW corrCoeffW)))).electric_power_MW
      = 330
    ∧ gtSpecCex.ISO_power_MW.getD 0 = 300 := by
  refine ⟨?_, ?_, ?_, ?_⟩ <;>
    norm_num [apply_site_corrections, solve_gt_block, vendorBlendFactors, ambientIsoW,
      corrCoeffW, gtSpecCex, vendorLookupCex]
  rw [if_neg (show ("curveA" : String) ≠ "" by decide)]
  norm_num

/-- Witness for C5 at the spec's ISO scenario (ISO power 300 MW, heat rate
9500 kJ/kWh, ambient 15 degrees, no blend): 300 MW electric and
9500*300/3600 MW fuel heat input. -/
theorem gt_iso_reference_witness :
    (solve_gt_block (fun _ => none) (GtInputs.mk (some gtSpecIsoW) (some (apply_site_corrections ambientIsoW corrCoeffW)))).electric_power_MW
      = 300
    ∧ (solve_gt_block (fun _ => none) (GtInputs.mk (some gtSpecIsoW) (some (apply_site_corrections ambientIsoW corrCoeffW)))).fuel_heat_input_MW_LHV
      = 9500 * 300 / 3600 := by
  have h := gt_iso_reference ambientIsoW corrCoeffW
    (fun _ => none : String → Option (VendorCurve ℚ)) gtSpecIsoW rfl rfl
  refine ⟨h.2.2.2.1, ?_⟩
  rw [h.2.2.2.2, h.2.2.2.1]
  norm_num [gtSpecIsoW]

lemma ten_rpow_neg53_lt : (10 : ℝ) ^ ((-5 : ℝ) / 3) < 1 / 20 := by
  have hcube : ((10 : ℝ) ^ ((-5 : ℝ) / 3)) ^ (3 : ℕ) = (10 : ℝ) ^ ((-5 : ℝ)) := by
    rw [← Real.rpow_natCast ((10 : ℝ) ^ ((-5 : ℝ) / 3)) 3,
      ← Real.rpow_mul (by norm_num : (0 : ℝ) ≤ 10)]
    norm_num
  have h5 : (10 : ℝ) ^ ((-5 : ℝ)) = 1 / 100000 := by
    rw [show ((-5 : ℝ)) = ((-5 : ℤ) : ℝ) by norm_num, Real.rpow_intCast]
    norm_num
  have hlt : ((10 : ℝ) ^ ((-5 : ℝ) / 3)) ^ (3 : ℕ) < (1 / 20 : ℝ) ^ (3 : ℕ) := by
    rw [hcube, h5]
    norm_num
  exact lt_of_pow_lt_pow_left₀ 3 (by norm_num) hlt

lemma logb_ten_twentieth_gt : (-5 : ℝ) / 3 < Real.logb 10 (1 / 20) :=
  (Real.lt_logb_iff_rpow_lt (by norm_num) (by norm_num)).mpr ten_rpow_neg53_lt

/-- Claim C6 (amended): ST exhaust-saturation correlation.  The correlation
clamps the pressure at 0.05 bar inside the logarithm, so for every pressure at
least 0.05 bar — which covers every pressure `solve_steam_turbine` actually
passes, since it clamps its three arguments to at least 1, 0.5 and 0.1 bar —
the returned value equals `max(100 + 45*log10(P_bar), 25)`; the flat 25 branch
is taken only for non-positive pressures. -/
theorem st_sat_temp_formula (p : ℝ) (hp : 5 / 100 ≤ p) :
    approxSatTemp p = max (100 + 45 * Real.logb 10 p) 25 := by
  have hp0 : (0 : ℝ) < p := lt_of_lt_of_le (by norm_num) hp
  have hlog : (-5 : ℝ) / 3 < Real.logb 10 p :=
    lt_of_lt_of_le logb_ten_twentieth_gt
      (Real.logb_le_logb_of_le (by norm_num) (by norm_num) (by linarith))
  have h25 : (25 : ℝ) ≤ 100 + 45 * Real.logb 10 p := by nlinarith
  rw [approxSatTemp, if_neg (not_le.mpr hp0), max_eq_left hp]
  exact (max_eq_left h25).symm

/-- Witness for C6 (amended) at 10 bar: both sides agree (and the floor is
inactive). -/
theorem st_sat_temp_formula_witness :
    (5 / 100 : ℝ) ≤ 10
    ∧ approxSatTemp 10 = max (100 + 45 * Real.logb 10 10) 25 :=
  ⟨by norm_num, st_sat_temp_formula 10 (by norm_num)⟩

/-- Counterexample for C6 as stated: at the sub-atmospheric pressure 0.01 bar
the claimed value `max(100 + 45*log10(0.01), 25) = 25`, but the code clamps the
argument to 0.05 and returns `100 + 45*log10(0.05) > 25`. -/
theorem st_sat_temp_cex :
    (0 : ℝ) < 1 / 100 ∧ (1 / 100 : ℝ) < 1
    ∧ approxSatTemp (1 / 100) ≠ max (100 + 45 * Real.logb 10 (1 / 100)) 25 := by
  refine ⟨by norm_num, by norm_num, ?_⟩
  have hlhs : approxSatTemp (1 / 100) = 100 + 45 * Real.logb 10 (1 / 20) := by
    rw [approxSatTemp, if_neg (by norm_num), max_eq_right (by norm_num)]
    norm_num
  have h100 : Real.logb 10 (1 / 100 : ℝ) = -2 := by
    have hpow : (1 / 100 : ℝ) = (10 : ℝ) ^ (-2 : ℝ) := by
      rw [show (-2 : ℝ) = ((-2 : ℤ) : ℝ) by norm_num, Real.rpow_intCast]
      norm_num
    rw [hpow]
    exact Real.logb_rpow (by norm_num) (by norm_num)
  have hrhs : max (100 + 45 * Real.logb 10 (1 / 100)) 25 = (25 : ℝ) := by
    rw [h100]
    norm_num
  rw [hlhs, hrhs]
  have := logb_ten_twentieth_gt
  intro h
  nlinarith

/-- Claim C8: cancellation atomicity.  If the cooperative cancellation signal
reads set at the initial check or at any of the later stage boundaries (the
six `_check_cancel()` calls, one before each stage), `run_pipeline` raises the
distinguished `PipelineCancelled` condition and returns no artifacts. -/
theorem pipeline_cancelled_no_artifacts (lookup : String → Option (VendorCurve ℝ))
    (caseData : Case ℝ) (cancel : Fin 6 → Bool)
    (h : ∃ i : Fin 6, cancel i = true) :
    runPipeline lookup caseData cancel = Except.error {} := by
  obtain ⟨i, hi⟩ := h
  by_cases h0 : cancel 0 = true
  · simp [runPipeline, h0]
  by_cases h1 : cancel 1 = true
  · simp [runPipeline, h0, h1]
  by_cases h2 : cancel 2 = true
  · simp [runPipeline, h0, h1, h2]
  by_cases h3 : cancel 3 = true
  · simp [runPipeline, h0, h1, h2, h3]
  by_cases h4 : cancel 4 = true
  · simp [runPipeline, h0, h1, h2, h3, h4]
  by_cases h5 : cancel 5 = true
  · simp [runPipeline, h0, h1, h2, h3, h4, h5]
  exfalso
  fin_cases i <;> simp_all

/-- Witness for C8: with the signal set from the start, the pipeline returns
the cancellation condition on a concrete case. -/
theorem pipeline_cancelled_witness :
    runPipeline (fun _ => none) caseEmptyR (fun _ => true) = Except.error {} :=
  pipeline_cancelled_no_artifacts (fun _ => none) caseEmptyR (fun _ => true) ⟨0, rfl⟩

/-- Claim C3 evaluated at the failing input (`relaxCase`): the HP level has an
actual pinch of 5 K against a 10 K limit under the default `enforce` mode, and
the case supplies `case_constraints.allow_relaxed_pinch = true`.  Running the
case through the pipeline yields `converged = false` with the
`HRSG_PINCH_VIOLATION` warning, because `run_pipeline` builds the HRSG context
without the case's `case_constraints`; calling `solve_hrsg_block` directly
with the same exhaust state, HRSG spec and the case's `case_constraints`
yields `converged = true`, as the claim (and the spec) describe. -/
theorem pipeline_drops_relax_flag :
    (runPipeline (fun _ => none) relaxCase (fun _ => false)).map
        (fun a => a.hrsg_block.converged) = Except.ok false
    ∧ (runPipeline (fun _ => none) relaxCase (fun _ => false)).map
        (fun a => decide (WCode.HRSG_PINCH_VIOLATION ∈ a.hrsg_block.warnings)) = Except.ok true
    ∧ (solve_hrsg_block (HrsgContext.mk (some ⟨some 0, some 0⟩) relaxCase.hrsg
        relaxCase.case_constraints)).converged = true := by
  refine ⟨?_, ?_, ?_⟩ <;>
    norm_num [runPipeline, Except.map, relaxCase, solve_gt_block, vendorBlendFactors,
      apply_site_corrections, solve_hrsg_block, initialLevels, levelFlow, levelWeight,
      totalInverse, levelEnergy, levelSteamTemp, specificEnergyRequired, hrsgFeedwaterTemp,
      hrsgStackTarget0, hrsgStackTarget, hrsgAvailableHeat, hrsgExhaustFlow, usableExhaustFlow,
      hrsgBypassFraction, HrsgSpec.levelSpec, levelCheck, applyAttemp, LevelsOut.get,
      max_def, min_def]

lemma lookupKey_eq_none_of_not_mem {k : String} {m : List (String × JVal)}
    (h : k ∉ m.map Prod.fst) : lookupKey k m = none := by
  induction m with
  | nil => rfl
  | cons p rest ih =>
    obtain ⟨k0, v0⟩ := p
    simp only [List.map_cons, List.mem_cons, not_or] at h
    simp only [lookupKey, if_neg (fun hk : k0 = k => h.1 hk.symm)]
    exact ih h.2

lemma lookupKey_append_single {k : String} {m : List (String × JVal)} {v : JVal}
    (h : lookupKey k m = none) : lookupKey k (m ++ [(k, v)]) = some v := by
  induction m with
  | nil => simp [lookupKey]
  | cons p rest ih =>
    obtain ⟨k0, v0⟩ := p
    simp only [lookupKey, List.cons_append] at h ⊢
    by_cases hk : k0 = k
    · rw [if_pos hk] at h
      exact absurd h (by simp)
    · rw [if_neg hk] at h ⊢
      exact ih h

lemma lookupKey_append_single_ne {k k' : String} {m : List (String × JVal)} {v : JVal}
    (h : k' ≠ k) : lookupKey k' (m ++ [(k, v)]) = lookupKey k' m := by
  induction m with
  | nil =>
    simp only [List.nil_append, lookupKey, if_neg (fun hh : k = k' => h hh.symm)]
  | cons p rest ih =>
    obtain ⟨k0, v0⟩ := p
    simp only [List.cons_append, lookupKey]
    by_cases hk' : k0 = k'
    · rw [if_pos hk', if_pos hk']
    · rw [if_neg hk', if_neg hk']
      exact ih

lemma lookupKey_map_replace {k : String} {m : List (String × JVal)} {v : JVal}
    (h : (lookupKey k m).isSome) :
    lookupKey k (m.map fun p => if p.1 = k then (k, v) else p) = some v := by
  induction m with
  | nil => simp [lookupKey] at h
  | cons p rest ih =>
    obtain ⟨k0, v0⟩ := p
    simp only [List.map_cons]
    by_cases hk : k0 = k
    · subst hk
      rw [show (if (k0, v0).1 = k0 then (k0, v) else (k0, v0)) = (k0, v) from if_pos rfl]
      simp [lookupKey]
    · rw [show (if (k0, v0).1 = k then (k, v) else (k0, v0)) = (k0, v0) from if_neg hk]
      simp only [lookupKey, if_neg hk] at h ⊢
      exact ih h

lemma lookupKey_map_replace_ne {k k' : String} {m : List (String × JVal)} {v : JVal}
    (h : k' ≠ k) :
    lookupKey k' (m.map fun p => if p.1 = k then (k, v) else p) = lookupKey k' m := by
  induction m with
  | nil => rfl
  | cons p rest ih =>
    obtain ⟨k0, v0⟩ := p
    simp only [List.map_cons]
    by_cases hk : k0 = k
    · subst hk
      rw [show (if (k0, v0).1 = k0 then (k0, v) else (k0, v0)) = (k0, v) from if_pos rfl]
      simp only [lookupKey, if_neg (fun hh : k0 = k' => h hh.symm)]
      exact ih
    · rw [show (if (k0, v0).1 = k then (k, v) else (k0, v0)) = (k0, v0) from if_neg hk]
      simp only [lookupKey]
      by_cases hk' : k0 = k'
      · rw [if_pos hk', if_pos hk']
      · rw [if_neg hk', if_neg hk']
        exact ih

lemma lookupKey_setKey_self (m : List (String × JVal)) (k : String) (v : JVal) :
    lookupKey k (setKey m k v) = some v := by
  unfold setKey
  by_cases h : (lookupKey k m).isSome
  · rw [if_pos h]
    exact lookupKey_map_replace h
  · rw [if_neg h]
    exact lookupKey_append_single (Option.not_isSome_iff_eq_none.mp h)

lemma lookupKey_setKey_ne (m : List (String × JVal)) (k k' : String) (v : JVal)
    (h : k' ≠ k) : lookupKey k' (setKey m k v) = lookupKey k' m := by
  unfold setKey
  by_cases hs : (lookupKey k m).isSome
  · rw [if_pos hs]
    exact lookupKey_map_replace_ne h
  · rw [if_neg hs]
    exact lookupKey_append_single_ne h

/-- Claim C9: deep-merge semantics.  For dict inputs (association lists whose
override keys are pairwise distinct, as Python dict iteration guarantees),
looking up any key in `deep_merge base override` yields: the recursive merge
when the key maps to a mapping on both sides, the override value wholesale for
any other key present in the override (scalars and sequences replaced, not
merged), and the base value for keys present only in `base`; keys absent from
both stay absent.  The Lean model is a pure function, mirroring that the
Python implementation copies `base` and never mutates either input. -/
theorem deep_merge_lookup (base ov : List (String × JVal))
    (hnd : (ov.map Prod.fst).Nodup) (k : String) :
    lookupKey k (deep_merge base ov) =
      match lookupKey k ov with
      | none => lookupKey k base
      | some v =>
        match lookupKey k base, v with
        | some (JVal.obj bo), JVal.obj vo => some (JVal.obj (deep_merge bo vo))
        | _, _ => some v := by
  induction ov generalizing base with
  | nil =>
    simp only [deep_merge, lookupKey]
  | cons p rest ih =>
    obtain ⟨k0, v0⟩ := p
    rw [deep_merge]
    rw [List.map_cons, List.nodup_cons] at hnd
    have hnd2 := hnd
    by_cases hk : k0 = k
    · subst hk
      have hrest : lookupKey k0 rest = none := lookupKey_eq_none_of_not_mem hnd2.1
      rw [ih _ hnd2.2, hrest]
      simp only [lookupKey, if_pos rfl]
      rw [lookupKey_setKey_self]
      cases hb : lookupKey k0 base with
      | none => cases v0 <;> simp [mergeVal]
      | some w => cases w <;> cases v0 <;> simp [mergeVal]
    · have hcons : lookupKey k ((k0, v0) :: rest) = lookupKey k rest := by
        simp [lookupKey, hk]
      rw [ih _ hnd2.2, hcons, lookupKey_setKey_ne _ _ _ _ (fun hh : k = k0 => hk hh.symm)]

/-- Witness for C9 on concrete mappings: the key on both sides with mapping
values merges recursively. -/
theorem deep_merge_lookup_witness :
    lookupKey "nest" (deep_merge mergeBaseW mergeOvW)
      = some (JVal.obj (deep_merge [("x", JVal.num 1), ("y", JVal.num 2)]
          [("y", JVal.num 5), ("z", JVal.num 6)])) :=
  deep_merge_lookup mergeBaseW mergeOvW (by decide) "nest"
